import Mathlib

/-!
Verification development for the `statsig-mcp-stats` repository.

The repository is Python glue code exposing Statsig's Console API and
evaluation SDK as MCP tools.  The relevant parts are shallowly embedded
here:

* JSON values (`JValue`) and Python dictionaries (`PyDict`) model the
  request/response shapes; `pyGet`/`pyGetD` model `dict.get`, `pyStr`
  models Python `str()` as used in f-strings, and `JValue.truthy`
  models Python truthiness.
* `StatsigConsoleClient` methods from `src/statsig_mcp/console_client.py`
  are embedded over an abstract HTTP outcome (`HttpOutcome`): the
  network call either raises or yields a status code and a body whose
  JSON parse may fail.  Exceptions are explicit `Except PyErr` values.
* `StatsigMCPClient` methods from `src/statsig_mcp/statsig_client.py`
  are embedded over an abstract SDK call outcome (`Except String _`).
* The formatters and the `call_tool` dispatcher from
  `src/statsig_mcp/server.py` are embedded as pure functions; the
  dispatcher additionally records which backend client method it
  invoked, so that "no backend call is attempted" is expressible.
-/

/-- A JSON-ish Python value.  `jnum` carries a non-integral numeric
literal opaquely as its decimal text (numeric values are only passed
through by this code base, never computed with). -/
inductive JValue where
  | jnull
  | jbool (b : Bool)
  | jint (n : Int)
  | jnum (s : String)
  | jstr (s : String)
  | jlist (xs : List JValue)
  | jdict (xs : List (String × JValue))

/-- A Python `dict[str, Any]`: insertion-ordered key/value pairs.
Lookup takes the first match; real Python dicts have unique keys. -/
abbrev PyDict := List (String × JValue)

/-- `d.get(k)`: first value bound to `k`, or `None` (here `none`). -/
def pyGet : PyDict → String → Option JValue
  | [], _ => none
  | (k', v) :: d, k => if k' = k then some v else pyGet d k

/-- `d.get(k, default)`. -/
def pyGetD (d : PyDict) (k : String) (dflt : JValue) : JValue :=
  (pyGet d k).getD dflt

/-- `k in d`. -/
def pyContains (d : PyDict) (k : String) : Bool :=
  (pyGet d k).isSome

mutual
/-- Python `str(v)` as used by f-strings: container elements render via
`repr`.  String escaping inside `repr` is not modelled (no key or value
used in a proof contains a quote). -/
def pyStr (v : JValue) : String :=
  match v with
  | .jnull => "None"
  | .jbool true => "True"
  | .jbool false => "False"
  | .jint n => toString n
  | .jnum s => s
  | .jstr s => s
  | .jlist xs => "[" ++ String.intercalate ", " (pyReprList xs) ++ "]"
  | .jdict xs => "\x7b" ++ String.intercalate ", " (pyReprPairs xs) ++ "\x7d"

/-- Python `repr(v)`: same as `str(v)` except strings are quoted. -/
def pyRepr (v : JValue) : String :=
  match v with
  | .jnull => "None"
  | .jbool true => "True"
  | .jbool false => "False"
  | .jint n => toString n
  | .jnum s => s
  | .jstr s => "'" ++ s ++ "'"
  | .jlist xs => "[" ++ String.intercalate ", " (pyReprList xs) ++ "]"
  | .jdict xs => "\x7b" ++ String.intercalate ", " (pyReprPairs xs) ++ "\x7d"
termination_by structural v

def pyReprList (l : List JValue) : List String :=
  match l with
  | [] => []
  | x :: xs => pyRepr x :: pyReprList xs
termination_by structural l

def pyReprPairs (l : List (String × JValue)) : List String :=
  match l with
  | [] => []
  | (k, v) :: xs => ("'" ++ k ++ "': " ++ pyRepr v) :: pyReprPairs xs
termination_by structural l
end

/-- Python truthiness of a value.  For a non-integral numeric literal
only the literal texts `"0"` and `"0.0"` count as falsy (the code base
never branches on the truthiness of a float). -/
def JValue.truthy : JValue → Bool
  | .jnull => false
  | .jbool b => b
  | .jint n => n ≠ 0
  | .jnum s => !(s = "0" || s = "0.0")
  | .jstr s => !s.data.isEmpty
  | .jlist xs => !xs.isEmpty
  | .jdict xs => !xs.isEmpty

/-- Truthiness of a `dict.get` result (`None` when the key is absent). -/
def pyTruthyOpt : Option JValue → Bool
  | none => false
  | some v => v.truthy

/-- `str()` of a `dict.get` result (`None` prints as `"None"`). -/
def pyStrOpt : Option JValue → String
  | none => "None"
  | some v => pyStr v

/-- `v == "s"` against a Python string literal: only a `str` value can
compare equal to a string. -/
def jeqStr (v : JValue) (s : String) : Bool :=
  match v with
  | .jstr t => t = s
  | _ => false

/-- `item.get(k, default)` where `item` is an arbitrary JSON value.
The code base only reaches this with dict items; a non-dict would raise
in Python and is mapped to the default here (no claim touches that
case). -/
def jGetD (v : JValue) (k : String) (dflt : JValue) : JValue :=
  match v with
  | .jdict d => pyGetD d k dflt
  | _ => dflt

/-- `data.items()` of an arbitrary JSON value (dicts only; see
`jGetD`). -/
def jItems : JValue → List (String × JValue)
  | .jdict d => d
  | _ => []

/-- Elements of a JSON array (the code base only iterates lists here;
see `jGetD`). -/
def jElems : JValue → List JValue
  | .jlist xs => xs
  | _ => []

/-- `s.lower()`. -/
def lowerStr (s : String) : String := String.mk (s.data.map Char.toLower)

/-- `s.upper()`. -/
def upperStr (s : String) : String := String.mk (s.data.map Char.toUpper)

/-- Helper for `pyTitle`: the boolean records whether the previous
character was alphabetic (Python: cased). -/
def pyTitleAux : Bool → List Char → List Char
  | _, [] => []
  | prevCased, c :: cs =>
    if c.isAlpha then
      (if prevCased then c.toLower else c.toUpper) :: pyTitleAux true cs
    else
      c :: pyTitleAux false cs

/-- Python `s.title()` (restricted to alphabetic/ASCII casing, which is
all the key names use). -/
def pyTitle (s : String) : String := String.mk (pyTitleAux false s.data)

/-- `key.replace("_", " ")`. -/
def underscoresToSpaces (s : String) : String :=
  String.mk (s.data.map fun c => if c = '_' then ' ' else c)

/-- A Python exception relevant to this code base. -/
inductive PyErr where
  | keyError (k : String)
  | runtimeError (msg : String)
  | exc (msg : String)

/-- Python `str(e)` of an exception: `str` of a `KeyError` is the
`repr` of the missing key. -/
def pyErrStr : PyErr → String
  | .keyError k => "'" ++ k ++ "'"
  | .runtimeError m => m
  | .exc m => m

/-- Prefix test on character lists (used by the substring test). -/
def listHasPre : List Char → List Char → Bool
  | [], _ => true
  | _ :: _, [] => false
  | a :: p, b :: l => a = b && listHasPre p l

/-- Substring test on character lists. -/
def listHasSub (n : List Char) : List Char → Bool
  | [] => n.isEmpty
  | b :: l => listHasPre n (b :: l) || listHasSub n l

/-- `needle in hay` for strings. -/
def strInfixB (needle hay : String) : Bool := listHasSub needle.data hay.data

/-! ## Console API client (`src/statsig_mcp/console_client.py`)

Each method performs one HTTP call through `httpx`.  The call's outcome
is abstracted as `HttpOutcome`: the request either raises (network
failure) or produces a response with a status code and a body whose
JSON decoding may itself fail.  `raise_for_status` raises exactly for
non-2xx statuses. -/

/-- Outcome of one HTTP request. -/
inductive HttpOutcome where
  | fail (msg : String)
  | resp (status : Nat) (body : Except String PyDict)

namespace StatsigConsoleClient

/-- Message of the exception `raise_for_status` raises for a non-2xx
status (the exact `httpx` wording is irrelevant to every claim and is
modelled abstractly). -/
def statusErrMsg (status : Nat) : String :=
  "HTTP status error " ++ toString status

/-- `response.is_success`: true exactly for 2xx statuses. -/
def is2xx (status : Nat) : Bool := 200 ≤ status && status ≤ 299

/-- `get_gate` (console_client.py lines 67-81).  The
`not self._initialized or not self._client` guard is modelled by the
single `initialized` flag (the two fields are set together). -/
def get_gate (initialized : Bool) (gate_id : String)
    (outcome : HttpOutcome) : Except PyErr PyDict :=
  if !initialized then
    .error (.runtimeError "Console API client not initialized")
  else
    .ok (match outcome with
      | .fail msg => [("error", .jstr msg)]
      | .resp status body =>
        if status = 404 then
          [("found", .jbool false),
           ("error", .jstr ("Gate '" ++ gate_id ++ "' not found"))]
        else if is2xx status then
          match body with
          | .ok d => d
          | .error msg => [("error", .jstr msg)]
        else
          [("error", .jstr (statusErrMsg status))])

/-- URL built by `list_gates` (lines 56-58): `?limit=` is appended only
when `limit` is truthy (so `None` and `0` both leave it off). -/
def list_gates_url (limit : Option JValue) : String :=
  match limit with
  | some v =>
    if v.truthy then "/console/v1/gates?limit=" ++ pyStr v
    else "/console/v1/gates"
  | none => "/console/v1/gates"

/-- URL built by `list_experiments` (lines 147-149). -/
def list_experiments_url (limit : Option JValue) : String :=
  match limit with
  | some v =>
    if v.truthy then "/console/v1/experiments?limit=" ++ pyStr v
    else "/console/v1/experiments"
  | none => "/console/v1/experiments"

/-- URL built by `list_dynamic_configs` (lines 238-240). -/
def list_dynamic_configs_url (limit : Option JValue) : String :=
  match limit with
  | some v =>
    if v.truthy then "/console/v1/dynamic_configs?limit=" ++ pyStr v
    else "/console/v1/dynamic_configs"
  | none => "/console/v1/dynamic_configs"

/-- URL built by `list_segments` (lines 327-329). -/
def list_segments_url (limit : Option JValue) : String :=
  match limit with
  | some v =>
    if v.truthy then "/console/v1/segments?limit=" ++ pyStr v
    else "/console/v1/segments"
  | none => "/console/v1/segments"

/-- URL built by `list_metrics` (lines 377-379). -/
def list_metrics_url (limit : Option JValue) : String :=
  match limit with
  | some v =>
    if v.truthy then "/console/v1/metrics?limit=" ++ pyStr v
    else "/console/v1/metrics"
  | none => "/console/v1/metrics"

/-- Shared tail of every `list_*` method: GET the URL, raise for a
non-2xx status, return the JSON body; any exception becomes
`{"error": str(e)}`. -/
def listFetch (backend : String → HttpOutcome) (url : String) : PyDict :=
  match backend url with
  | .fail msg => [("error", .jstr msg)]
  | .resp status body =>
    if is2xx status then
      match body with
      | .ok d => d
      | .error msg => [("error", .jstr msg)]
    else
      [("error", .jstr (statusErrMsg status))]

/-- `list_gates` (lines 50-65) over an abstract backend mapping the
requested URL to an outcome. -/
def list_gates (initialized : Bool) (limit : Option JValue)
    (backend : String → HttpOutcome) : Except PyErr PyDict :=
  if !initialized then
    .error (.runtimeError "Console API client not initialized")
  else
    .ok (listFetch backend (list_gates_url limit))

/-- `list_experiments` (lines 141-156). -/
def list_experiments (initialized : Bool) (limit : Option JValue)
    (backend : String → HttpOutcome) : Except PyErr PyDict :=
  if !initialized then
    .error (.runtimeError "Console API client not initialized")
  else
    .ok (listFetch backend (list_experiments_url limit))

/-- Request body built by `update_gate` (lines 110-116): only `name`,
`description` and `is_enabled` (renamed `isEnabled`) survive; the
`updates[k]` accesses are guarded by `k in updates`, so the `.jnull`
defaults below are never used. -/
def update_gate_data (updates : PyDict) : PyDict :=
  (if pyContains updates "name" then
    [("name", pyGetD updates "name" .jnull)] else [])
  ++ (if pyContains updates "description" then
    [("description", pyGetD updates "description" .jnull)] else [])
  ++ (if pyContains updates "is_enabled" then
    [("isEnabled", pyGetD updates "is_enabled" .jnull)] else [])

/-- `update_gate` (lines 101-125): PATCH the filtered body, raise for a
non-2xx status; the response body is never read. -/
def update_gate (initialized : Bool) (gate_id : String) (updates : PyDict)
    (backend : String → PyDict → HttpOutcome) : Except PyErr PyDict :=
  if !initialized then
    .error (.runtimeError "Console API client not initialized")
  else
    .ok (match backend ("/console/v1/gates/" ++ gate_id)
          (update_gate_data updates) with
      | .fail msg => [("success", .jbool false), ("error", .jstr msg)]
      | .resp status _ =>
        if is2xx status then [("success", .jbool true)]
        else
          [("success", .jbool false),
           ("error", .jstr (statusErrMsg status))])

/-- Request body sent by `update_experiment` (line 208): the `updates`
map is passed to the PATCH verbatim (`json=updates`). -/
def update_experiment_data (updates : PyDict) : PyDict := updates

/-- `update_experiment` (lines 199-214). -/
def update_experiment (initialized : Bool) (experiment_id : String)
    (updates : PyDict) (backend : String → PyDict → HttpOutcome) :
    Except PyErr PyDict :=
  if !initialized then
    .error (.runtimeError "Console API client not initialized")
  else
    .ok (match backend ("/console/v1/experiments/" ++ experiment_id)
          (update_experiment_data updates) with
      | .fail msg => [("success", .jbool false), ("error", .jstr msg)]
      | .resp status _ =>
        if is2xx status then [("success", .jbool true)]
        else
          [("success", .jbool false),
           ("error", .jstr (statusErrMsg status))])

end StatsigConsoleClient

/-! ## Evaluation SDK client (`src/statsig_mcp/statsig_client.py`)

Each wrapper method builds a `StatsigUser` from the attribute map (this
step is *outside* the `try`, so a missing `user_id` raises a `KeyError`
past the wrapper), then performs one SDK call whose outcome is
abstracted as an `Except String _` parameter: either the normalized
object the SDK returned or the text of the exception it raised.  The
`hasattr`/`getattr` duck-typing over SDK versions is modelled by
normalized result records that always carry the accessed fields. -/

/-- Normalized feature-gate object returned by the SDK. -/
structure SdkGate where
  value : Bool
  rule_id : String
  group_name : Option String

/-- Normalized dynamic-config / experiment object returned by the SDK:
its `value` is a parameter map (possibly empty). -/
structure SdkConfig where
  value : PyDict
  rule_id : String
  group_name : Option String

/-- Normalized layer object returned by the SDK. -/
structure SdkLayer where
  value : PyDict
  rule_id : String
  allocated_experiment_name : Option String

/-- `FeatureGateResult` (types.py lines 95-100). -/
structure FeatureGateResult where
  gate_name : String
  value : Bool
  rule_id : String
  group_name : Option String

/-- `DynamicConfigResult` (types.py lines 103-108). -/
structure DynamicConfigResult where
  config_name : String
  value : PyDict
  rule_id : String
  group_name : Option String

/-- `ExperimentResult` (types.py lines 111-116). -/
structure ExperimentResult where
  experiment_name : String
  value : PyDict
  rule_id : String
  group_name : Option String

/-- `LayerResult` (types.py lines 119-124). -/
structure LayerResult where
  layer_name : String
  value : PyDict
  rule_id : String
  allocated_experiment_name : Option String

/-- `EventLogResult` (types.py lines 127-130). -/
structure EventLogResult where
  success : Bool
  message : String

namespace StatsigMCPClient

/-- `_create_statsig_user` (statsig_client.py lines 86-110): the
mandatory `user_attrs["user_id"]` access raises a `KeyError` when the
key is absent; each optional field is copied only when truthy. -/
def create_statsig_user (user_attrs : PyDict) : Except PyErr PyDict :=
  match pyGet user_attrs "user_id" with
  | none => .error (.keyError "user_id")
  | some uid =>
    .ok ([("user_id", uid)]
      ++ (if pyTruthyOpt (pyGet user_attrs "user_email") then
        [("email", pyGetD user_attrs "user_email" .jnull)] else [])
      ++ (if pyTruthyOpt (pyGet user_attrs "user_country") then
        [("country", pyGetD user_attrs "user_country" .jnull)] else [])
      ++ (if pyTruthyOpt (pyGet user_attrs "user_ip") then
        [("ip", pyGetD user_attrs "user_ip" .jnull)] else [])
      ++ (if pyTruthyOpt (pyGet user_attrs "user_agent") then
        [("user_agent", pyGetD user_attrs "user_agent" .jnull)] else [])
      ++ (if pyTruthyOpt (pyGet user_attrs "app_version") then
        [("app_version", pyGetD user_attrs "app_version" .jnull)] else [])
      ++ (if pyTruthyOpt (pyGet user_attrs "locale") then
        [("locale", pyGetD user_attrs "locale" .jnull)] else [])
      ++ (if pyTruthyOpt (pyGet user_attrs "custom_attributes") then
        [("custom", pyGetD user_attrs "custom_attributes" .jnull)] else [])
      ++ (if pyTruthyOpt (pyGet user_attrs "private_attributes") then
        [("private_attributes",
          pyGetD user_attrs "private_attributes" .jnull)] else []))

/-- `check_feature_gate` (lines 112-141): uninitialized raises; a
missing `user_id` raises; an SDK failure degrades to
`value False, rule_id "error"`. -/
def check_feature_gate (initialized : Bool) (user_attrs : PyDict)
    (gate_name : String) (sdk : PyDict → String → Except String SdkGate) :
    Except PyErr FeatureGateResult :=
  if !initialized then
    .error (.runtimeError "Statsig client not initialized")
  else
    match create_statsig_user user_attrs with
    | .error e => .error e
    | .ok user =>
      match sdk user gate_name with
      | .ok gate =>
        .ok ⟨gate_name, gate.value, gate.rule_id, gate.group_name⟩
      | .error _ => .ok ⟨gate_name, false, "error", none⟩

/-- `get_dynamic_config` (lines 143-178): an SDK failure degrades to an
empty value map with `rule_id "error"`. -/
def get_dynamic_config (initialized : Bool) (user_attrs : PyDict)
    (config_name : String)
    (sdk : PyDict → String → Except String SdkConfig) :
    Except PyErr DynamicConfigResult :=
  if !initialized then
    .error (.runtimeError "Statsig client not initialized")
  else
    match create_statsig_user user_attrs with
    | .error e => .error e
    | .ok user =>
      match sdk user config_name with
      | .ok config =>
        .ok ⟨config_name, config.value, config.rule_id, config.group_name⟩
      | .error _ => .ok ⟨config_name, [], "error", none⟩

/-- `get_experiment` (lines 180-212). -/
def get_experiment (initialized : Bool) (user_attrs : PyDict)
    (experiment_name : String)
    (sdk : PyDict → String → Except String SdkConfig) :
    Except PyErr ExperimentResult :=
  if !initialized then
    .error (.runtimeError "Statsig client not initialized")
  else
    match create_statsig_user user_attrs with
    | .error e => .error e
    | .ok user =>
      match sdk user experiment_name with
      | .ok expt =>
        .ok ⟨experiment_name, expt.value, expt.rule_id, expt.group_name⟩
      | .error _ => .ok ⟨experiment_name, [], "error", none⟩

/-- `get_layer` (lines 214-246). -/
def get_layer (initialized : Bool) (user_attrs : PyDict)
    (layer_name : String)
    (sdk : PyDict → String → Except String SdkLayer) :
    Except PyErr LayerResult :=
  if !initialized then
    .error (.runtimeError "Statsig client not initialized")
  else
    match create_statsig_user user_attrs with
    | .error e => .error e
    | .ok user =>
      match sdk user layer_name with
      | .ok layer =>
        .ok ⟨layer_name, layer.value, layer.rule_id,
          layer.allocated_experiment_name⟩
      | .error _ => .ok ⟨layer_name, [], "error", none⟩

/-- `log_event` (lines 248-284): the SDK logging call returns nothing
on success; a failure degrades to `success False` with the error text
appended to `"Failed to log event: "`. -/
def log_event (initialized : Bool) (user_attrs : PyDict)
    (event_name : String) (value : Option JValue) (metadata : Option PyDict)
    (sdk : PyDict → String → Option JValue → PyDict →
      Except String Unit) : Except PyErr EventLogResult :=
  if !initialized then
    .error (.runtimeError "Statsig client not initialized")
  else
    match create_statsig_user user_attrs with
    | .error e => .error e
    | .ok user =>
      match sdk user event_name value (metadata.getD []) with
      | .ok _ =>
        .ok ⟨true, "Event '" ++ event_name ++ "' logged successfully"⟩
      | .error e => .ok ⟨false, "Failed to log event: " ++ e⟩

end StatsigMCPClient

/-! ## Response formatters (`src/statsig_mcp/server.py`)

Each `_format_*` helper builds a list of output lines and joins them
with newlines; the embeddings keep the line lists explicit (`*_lines`)
so "this key is rendered on some line" is directly expressible. -/

/-- `v.get(k)` on an arbitrary JSON value (dicts only; see `jGetD`). -/
def jGet (v : JValue) (k : String) : Option JValue :=
  match v with
  | .jdict d => pyGet d k
  | _ => none

namespace Server

/-- The per-item entry line of `_format_list_result` (line 1015):
`🔹 {name} (ID: {item_id})`. -/
def listEntryHead (item : JValue) : String :=
  "🔹 " ++ pyStr (jGetD item "name" (jGetD item "id" (.jstr "Unknown")))
    ++ " (ID: "
    ++ pyStr (jGetD item "id" (jGetD item "name" (.jstr "Unknown"))) ++ ")"

/-- Lines appended for one item by the loop of `_format_list_result`
(server.py lines 1009-1024). -/
def listEntryLines (item : JValue) : List String :=
  let description := jGetD item "description" (.jstr "No description")
  let status := jGetD item "status" (jGetD item "isEnabled" (.jstr "Unknown"))
  [listEntryHead item]
    ++ (if description.truthy && !(jeqStr description "No description") then
      ["   Description: " ++ pyStr description] else [])
    ++ [(let s := lowerStr (pyStr status)
      if s = "true" || s = "active" || s = "enabled" then
        "   Status: ✅ " ++ pyStr status
      else if s = "false" || s = "inactive" || s = "disabled" then
        "   Status: ❌ " ++ pyStr status
      else
        "   Status: " ++ pyStr status)]
    ++ [""]

/-- The `output` line list of `_format_list_result` (lines 999-1026)
past the error check. -/
def format_list_lines (result : PyDict) (resource_type : String) :
    List String :=
  let items := jElems (pyGetD result "data" (pyGetD result "items" (.jlist [])))
  let total := match pyGet result "total" with
    | some v => pyStr v
    | none => toString items.length
  let header := "📋 " ++ resource_type ++ " (" ++ total ++ " found)"
  if items.isEmpty then [header, "   No items found"]
  else header :: "" :: items.flatMap listEntryLines

/-- `_format_list_result` (lines 992-1026). -/
def format_list_result (result : PyDict) (resource_type : String) : String :=
  if pyTruthyOpt (pyGet result "error") then
    "❌ Error listing " ++ resource_type ++ ": "
      ++ pyStrOpt (pyGet result "error")
  else
    String.intercalate "\n" (format_list_lines result resource_type)

/-- One body line of `_format_item_result` (lines 1046-1050): both the
`isinstance(value, dict | list)` arm and the plain arm render
`str(value)`, so they collapse to one. -/
def itemBodyLine (k : String) (v : JValue) : String :=
  "   " ++ pyTitle (underscoresToSpaces k) ++ ": " ++ pyStr v

/-- The `output` line list of `_format_item_result` (lines 1039-1052)
past the error and not-found checks: keys `id`, `data`, `found` and
`error` are explicitly skipped. -/
def format_item_lines (result : PyDict) (resource_type item_id : String) :
    List String :=
  let data := pyGetD result "data" (.jdict result)
  ("📄 " ++ resource_type ++ ": " ++ item_id) :: "" ::
    (jItems data).filterMap (fun kv =>
      if kv.1 = "id" ∨ kv.1 = "data" ∨ kv.1 = "found" ∨ kv.1 = "error" then
        none
      else some (itemBodyLine kv.1 kv.2))

/-- `_format_item_result` (lines 1029-1052). -/
def format_item_result (result : PyDict) (resource_type item_id : String) :
    String :=
  if pyTruthyOpt (pyGet result "error") then
    "❌ Error getting " ++ resource_type ++ " " ++ item_id ++ ": "
      ++ pyStrOpt (pyGet result "error")
  else if !(pyGetD result "found" (.jbool true)).truthy then
    "📭 " ++ resource_type ++ " '" ++ item_id ++ "' not found"
  else
    String.intercalate "\n" (format_item_lines result resource_type item_id)

/-- `_format_create_result` (lines 1055-1068). -/
def format_create_result (result : PyDict) (resource_type name : String) :
    String :=
  if pyTruthyOpt (pyGet result "error") then
    "❌ Error creating " ++ resource_type ++ " '" ++ name ++ "': "
      ++ pyStrOpt (pyGet result "error")
  else if (pyGetD result "success" (.jbool false)).truthy then
    let item_id := pyGetD result "id"
      (jGetD (pyGetD result "data" (.jdict [])) "id" (.jstr "Unknown"))
    "✅ Successfully created " ++ resource_type ++ " '" ++ name
      ++ "' (ID: " ++ pyStr item_id ++ ")"
  else
    "❌ Failed to create " ++ resource_type ++ " '" ++ name ++ "': "
      ++ pyStr (pyGetD result "message" (.jstr "Unknown error"))

/-- `_format_update_result` (lines 1071-1083). -/
def format_update_result (result : PyDict) (resource_type item_id : String) :
    String :=
  if pyTruthyOpt (pyGet result "error") then
    "❌ Error updating " ++ resource_type ++ " " ++ item_id ++ ": "
      ++ pyStrOpt (pyGet result "error")
  else if (pyGetD result "success" (.jbool false)).truthy then
    "✅ Successfully updated " ++ resource_type ++ " " ++ item_id
  else
    "❌ Failed to update " ++ resource_type ++ " " ++ item_id ++ ": "
      ++ pyStr (pyGetD result "message" (.jstr "Unknown error"))

/-- `_format_delete_result` (lines 1086-1098). -/
def format_delete_result (result : PyDict) (resource_type item_id : String) :
    String :=
  if pyTruthyOpt (pyGet result "error") then
    "❌ Error deleting " ++ resource_type ++ " " ++ item_id ++ ": "
      ++ pyStrOpt (pyGet result "error")
  else if (pyGetD result "success" (.jbool false)).truthy then
    "✅ Successfully deleted " ++ resource_type ++ " " ++ item_id
  else
    "❌ Failed to delete " ++ resource_type ++ " " ++ item_id ++ ": "
      ++ pyStr (pyGetD result "message" (.jstr "Unknown error"))

end Server

/-- Python numeric format specifiers (`:.2%`, `:.4f`, `:,.2f`, `:.1f`,
`:,`) appear only in the experiment-analytics formatters below, which
no claim touches; the exact digit strings are modelled abstractly as
`str(v)` with the real specifier recorded at each call site. -/
def pyFmt (_spec : String) (v : JValue) : String := pyStr v

/-- `v >= m` for the health-score thresholds of `_format_pulse_data`;
only integral scores are modelled (no claim touches this formatter). -/
def jGEint (v : JValue) (m : Int) : Bool :=
  match v with
  | .jint n => decide (m ≤ n)
  | _ => false

namespace Server

/-- Per-log lines of `_format_audit_logs_result` (server.py lines
1118-1128). -/
def auditLogLines (log : JValue) : List String :=
  let timestamp := jGetD log "timestamp" (jGetD log "createdAt" (.jstr "Unknown"))
  let action := jGetD log "action" (jGetD log "event" (.jstr "Unknown"))
  let user := jGetD log "user" (jGetD log "actor" (.jstr "Unknown"))
  let target := jGetD log "target" (jGetD log "resource" (.jstr "Unknown"))
  ["🔸 " ++ pyStr timestamp,
   "   Action: " ++ pyStr action,
   "   User: " ++ pyStr user,
   "   Target: " ++ pyStr target,
   ""]

/-- `_format_audit_logs_result` (lines 1101-1130). -/
def format_audit_logs_result (result : PyDict) : String :=
  if pyTruthyOpt (pyGet result "error") then
    "❌ Error listing audit logs: " ++ pyStrOpt (pyGet result "error")
  else
    let logs := jElems (pyGetD result "data" (pyGetD result "logs" (.jlist [])))
    let total := match pyGet result "total" with
      | some v => pyStr v
      | none => toString logs.length
    let header := "📜 Audit Logs (" ++ total ++ " found)"
    if logs.isEmpty then String.intercalate "\n" [header, "   No logs found"]
    else String.intercalate "\n" (header :: "" :: logs.flatMap auditLogLines)

/-- Per-event lines of `_format_events_query_result` (lines 863-867). -/
def eventTypeLines (event : JValue) : List String :=
  ["🔹 " ++ pyStr (jGetD event "name" (.jstr "Unknown")),
   "   Description: " ++ pyStr (jGetD event "description" (.jstr "No description"))]

/-- `_format_events_query_result` (lines 826-869). -/
def format_events_query_result (result : PyDict) : String :=
  if pyTruthyOpt (pyGet result "error") then
    "❌ Error querying events: " ++ pyStrOpt (pyGet result "error")
  else if pyContains result "event_name" then
    let event_name := pyGetD result "event_name" .jnull
    if !(pyGetD result "found" (.jbool false)).truthy then
      "📭 " ++ pyStr (pyGetD result "message"
        (.jstr ("Event '" ++ pyStr event_name ++ "' not found")))
    else
      let details := pyGetD result "details" (.jdict [])
      String.intercalate "\n" (("📊 Event Details: " ++ pyStr event_name) ::
        (if details.truthy then
          (jItems details).map (fun kv => "   " ++ kv.1 ++ ": " ++ pyStr kv.2)
        else []))
  else
    let event_types := pyGetD result "event_types" (.jlist [])
    let total_found := pyGetD result "total_found" (.jint 0)
    let note := pyGetD result "note" (.jstr "")
    String.intercalate "\n"
      ((("📊 Event Types (" ++ pyStr total_found ++ " found)") ::
        (if note.truthy then ["ℹ️  " ++ pyStr note] else []))
        ++ [""] ++ (jElems event_types).flatMap eventTypeLines)

/-- `_format_user_result` (lines 872-901). -/
def format_user_result (result : PyDict) : String :=
  let email := pyGetD result "email" (.jstr "Unknown")
  if pyTruthyOpt (pyGet result "error") then
    "❌ Error getting user " ++ pyStr email ++ ": "
      ++ pyStrOpt (pyGet result "error")
  else if !(pyGetD result "found" (.jbool false)).truthy then
    "👤 " ++ pyStr (pyGetD result "message"
      (.jstr ("User '" ++ pyStr email ++ "' not found")))
  else
    let user_data := pyGetD result "user_data" (.jdict [])
    let note := pyGetD result "note" (.jstr "")
    String.intercalate "\n"
      ((("👤 Team Member: " ++ pyStr email) ::
        (if note.truthy then ["ℹ️  " ++ pyStr note] else []))
        ++ [""]
        ++ (if user_data.truthy then
          (jItems user_data).filterMap (fun kv =>
            if kv.1 = "email" then none
            else some ("   " ++ kv.1 ++ ": " ++ pyStr kv.2))
        else []))

/-- Per-user lines of `_format_team_users_result` (lines 922-928). -/
def teamUserLines (user : JValue) : List String :=
  let email := jGetD user "email" (.jstr "Unknown")
  let name := jGetD user "name" (jGetD user "firstName" (.jstr "Unknown"))
  let role := jGetD user "role" (.jstr "Unknown")
  ["👤 " ++ pyStr name ++ " (" ++ pyStr email ++ ")",
   "   Role: " ++ pyStr role]

/-- `_format_team_users_result` (lines 904-930). -/
def format_team_users_result (result : PyDict) : String :=
  if pyTruthyOpt (pyGet result "error") then
    "❌ Error listing team users: " ++ pyStrOpt (pyGet result "error")
  else
    let team_users := pyGetD result "team_users" (.jlist [])
    let total_users := pyGetD result "total_users" (.jint 0)
    let note := pyGetD result "note" (.jstr "")
    String.intercalate "\n"
      ((("👥 Team Members (" ++ pyStr total_users ++ " total)") ::
        (if note.truthy then ["ℹ️  " ++ pyStr note] else []))
        ++ [""] ++ (jElems team_users).flatMap teamUserLines)

/-- Per-metric lines of the primary-metrics loop of
`_format_experiment_results` (lines 1153-1165). -/
def primaryMetricLines (metric : JValue) : List String :=
  ("   • " ++ pyStr (jGetD metric "metric_name" (.jstr "Unknown")))
    :: (match jGet metric "lift" with
      | some l => ["     Lift: " ++ pyFmt ".2%" l]
      | none => [])
    ++ (match jGet metric "p_value" with
      | some p => ["     P-value: " ++ pyFmt ".4f" p]
      | none => [])
    ++ ["     Significance: "
        ++ pyStr (jGetD metric "significance" (.jstr "Unknown")), ""]

/-- Per-metric lines of the secondary-metrics loop (lines 1171-1180). -/
def secondaryMetricLines (metric : JValue) : List String :=
  ("   • " ++ pyStr (jGetD metric "metric_name" (.jstr "Unknown")))
    :: (match jGet metric "lift" with
      | some l => ["     Lift: " ++ pyFmt ".2%" l]
      | none => [])
    ++ ["     Significance: "
        ++ pyStr (jGetD metric "significance" (.jstr "Unknown")), ""]

/-- `_format_experiment_results` (lines 1133-1187). -/
def format_experiment_results (result : PyDict) : String :=
  if pyTruthyOpt (pyGet result "error") then
    "❌ Error getting experiment results: " ++ pyStrOpt (pyGet result "error")
  else
    let data := pyGetD result "data" (.jdict [])
    let primary := jGetD data "primary_metrics" (.jlist [])
    let secondary := jGetD data "secondary_metrics" (.jlist [])
    String.intercalate "\n"
      ((["📊 Experiment Results: "
          ++ pyStr (jGetD data "experiment_name" (.jstr "Unknown"))
          ++ " (" ++ pyStr (jGetD data "experiment_id" (.jstr "Unknown")) ++ ")",
        "   Status: " ++ pyStr (jGetD data "status" (.jstr "Unknown")),
        ""]
        ++ (if primary.truthy then
          "🎯 Primary Metrics:" :: (jElems primary).flatMap primaryMetricLines
        else [])
        ++ (if secondary.truthy then
          "📈 Secondary Metrics:"
            :: (jElems secondary).flatMap secondaryMetricLines
        else [])
        ++ (if pyTruthyOpt (jGet data "recommendation") then
          ["💡 Recommendation: " ++ pyStrOpt (jGet data "recommendation")]
        else [])))

/-- `_format_pulse_data` (lines 1190-1241). -/
def format_pulse_data (result : PyDict) : String :=
  if pyTruthyOpt (pyGet result "error") then
    "❌ Error getting pulse data: " ++ pyStrOpt (pyGet result "error")
  else
    let data := pyGetD result "data" (.jdict [])
    let indicators := jGetD data "performance_indicators" (.jdict [])
    let alerts := jGetD data "alerts" (.jlist [])
    let recommendations := jGetD data "recommendations" (.jlist [])
    String.intercalate "\n"
      ((("💓 Experiment Pulse: "
          ++ pyStr (jGetD data "experiment_id" (.jstr "Unknown")))
        :: (match jGet data "health_score" with
          | some h =>
            ["   Health Score: " ++ pyFmt ".1f" h ++ "/10",
             if jGEint h 8 then "   Status: 🟢 Healthy"
             else if jGEint h 6 then "   Status: 🟡 Moderate"
             else "   Status: 🔴 Needs Attention"]
          | none => []))
        ++ [""]
        ++ (if indicators.truthy then
          ("📊 Performance Indicators:"
            :: (jItems indicators).map (fun kv =>
              "   • " ++ kv.1 ++ ": " ++ pyStr kv.2)) ++ [""]
        else [])
        ++ (if alerts.truthy then
          ("⚠️  Alerts:"
            :: (jElems alerts).map (fun alert =>
              "   • " ++ pyStr (jGetD alert "type" (.jstr "Unknown"))
                ++ ": " ++ pyStr (jGetD alert "message" (.jstr "No details"))))
            ++ [""]
        else [])
        ++ (if recommendations.truthy then
          "💡 Recommendations:"
            :: (jElems recommendations).map (fun rec => "   • " ++ pyStr rec)
        else []))

/-- `_format_metric_details` (lines 1244-1301). -/
def format_metric_details (result : PyDict) : String :=
  if pyTruthyOpt (pyGet result "error") then
    "❌ Error getting metric details: " ++ pyStrOpt (pyGet result "error")
  else
    let data := pyGetD result "data" (.jdict [])
    String.intercalate "\n"
      ((["📈 Metric Details: "
          ++ pyStr (jGetD data "metric_name" (.jstr "Unknown")),
        "   Type: " ++ pyStr (jGetD data "metric_type" (.jstr "Unknown")),
        ""]
        ++ (match jGet data "control_value", jGet data "test_value" with
          | some c, some t =>
            ["📊 Values:",
             "   Control: " ++ pyFmt ",.2f" c,
             "   Test: " ++ pyFmt ",.2f" t,
             ""]
          | _, _ => [])
        ++ ["📊 Statistical Analysis:"]
        ++ (match jGet data "lift" with
          | some l => ["   Lift: " ++ pyFmt ".2%" l]
          | none => [])
        ++ (match jGet data "lift_ci_lower", jGet data "lift_ci_upper" with
          | some lo, some hi =>
            ["   95% CI: [" ++ pyFmt ".2%" lo ++ ", " ++ pyFmt ".2%" hi ++ "]"]
          | _, _ => [])
        ++ (match jGet data "p_value" with
          | some p => ["   P-value: " ++ pyFmt ".4f" p]
          | none => [])
        ++ (if pyTruthyOpt (jGet data "significance") then
          ["   Significance: " ++ pyStrOpt (jGet data "significance")]
        else [])
        ++ (let sc := jGet data "sample_size_control"
          let st := jGet data "sample_size_test"
          if sc.isSome || st.isSome then
            ["", "👥 Sample Sizes:"]
              ++ (match sc with
                | some c => ["   Control: " ++ pyFmt "," c]
                | none => [])
              ++ (match st with
                | some t => ["   Test: " ++ pyFmt "," t]
                | none => [])
          else [])))

/-- `_format_pulse_report` (lines 1304-1341). -/
def format_pulse_report (result : PyDict) (format_type : String) : String :=
  if pyTruthyOpt (pyGet result "error") then
    "❌ Error exporting pulse report: " ++ pyStrOpt (pyGet result "error")
  else
    let data := pyGetD result "data" (.jdict [])
    String.intercalate "\n"
      ((["📋 Pulse Report Export (" ++ upperStr format_type ++ ")", ""])
        ++ (if format_type = "json" then
          ["Experiment: " ++ pyStr (jGetD data "experiment_id" (.jstr "Unknown")),
           "Report Date: " ++ pyStr (jGetD data "report_date" (.jstr "Unknown")),
           "",
           "📦 Export contains:",
           "   • Complete experiment results",
           "   • Statistical analysis",
           "   • Health metrics",
           "   • Performance indicators"]
        else if format_type = "csv" then
          ["📊 CSV Export Ready",
           "   • Metrics data in tabular format",
           "   • Statistical significance",
           "   • Confidence intervals"]
        else if format_type = "summary" then
          ["📝 Executive Summary",
           "   " ++ pyStr (jGetD data "summary" (.jstr "No summary available"))]
        else []))

end Server

/-! ## Dispatcher (`call_tool`, server.py lines 542-823)

The dispatcher checks the global client, selects a branch by tool name,
extracts arguments (`arguments[k]` raises `KeyError`), invokes one
Console-client method and formats its envelope; any exception raised
inside the `try` becomes an `"Error calling tool ..."` text.  The
embedding additionally records each client-method invocation that
reached an initialized client (and hence issued an HTTP request), so
"no backend call is attempted" is expressible. -/

/-- `arguments[k]`: raises `KeyError(k)` when the key is absent. -/
def pyGetItem (d : PyDict) (k : String) : Except PyErr JValue :=
  match pyGet d k with
  | some v => .ok v
  | none => .error (.keyError k)

/-- One invocation of a `StatsigConsoleClient` method with the
arguments the dispatcher passed. -/
inductive ClientCall where
  | list_gates (limit : Option JValue)
  | get_gate (gate_id : JValue)
  | create_gate (name description is_enabled : JValue)
  | update_gate (gate_id : JValue) (updates : PyDict)
  | delete_gate (gate_id : JValue)
  | list_experiments (limit : Option JValue)
  | get_experiment (experiment_id : JValue)
  | create_experiment (name description : JValue) (hypothesis : Option JValue)
  | update_experiment (experiment_id : JValue) (updates : PyDict)
  | delete_experiment (experiment_id : JValue)
  | list_dynamic_configs (limit : Option JValue)
  | get_dynamic_config (config_id : JValue)
  | create_dynamic_config (name description : JValue)
  | update_dynamic_config (config_id : JValue) (updates : PyDict)
  | delete_dynamic_config (config_id : JValue)
  | list_segments (limit : Option JValue)
  | get_segment (segment_id : JValue)
  | create_segment (name description : JValue)
  | list_metrics (limit : Option JValue)
  | get_metric (metric_id : JValue)
  | list_audit_logs (limit : JValue) (from_date to_date : Option JValue)
  | list_target_apps
  | get_target_app (app_id : JValue)
  | list_api_keys
  | query_events (event_name : Option JValue) (limit : JValue)
  | get_user_by_email (email : JValue)
  | list_team_users
  | get_experiment_results (experiment_id include_metrics : JValue)
  | get_experiment_pulse (experiment_id : JValue)
  | get_metric_details (metric_id experiment_id : JValue)
  | export_pulse_report (experiment_id format_type : JValue)

/-- Dispatcher-level view of the Console client: when initialized,
every method catches all its own errors and returns some envelope
(abstracted as the `respond` map); when not initialized, every method
raises `RuntimeError` before doing anything. -/
structure Client where
  initialized : Bool
  respond : ClientCall → PyDict

/-- Message of the `RuntimeError` an uninitialized method raises: the
experiment-analytics methods (console_client.py lines 576, 593, 609,
625) word it differently from the rest. -/
def initErrMsg : ClientCall → String
  | .get_experiment_results _ _ => "Client not initialized. Call initialize() first."
  | .get_experiment_pulse _ => "Client not initialized. Call initialize() first."
  | .get_metric_details _ _ => "Client not initialized. Call initialize() first."
  | .export_pulse_report _ _ => "Client not initialized. Call initialize() first."
  | _ => "Console API client not initialized"

/-- Invoke one client method: raises `RuntimeError` when the client is
not initialized, otherwise returns its envelope. -/
def Client.invoke (c : Client) (call : ClientCall) : Except PyErr PyDict :=
  if c.initialized then .ok (c.respond call)
  else .error (.runtimeError (initErrMsg call))

namespace Server

/-- The `{"type": "text", "text": s}` content dict every handler
branch returns (singleton list). -/
def textContent (s : String) : PyDict :=
  [("type", .jstr "text"), ("text", .jstr s)]

/-- Invoke one client method and format its envelope; the call is
recorded exactly when it reached an initialized client. -/
def invokeFmt (c : Client) (call : ClientCall) (fmt : PyDict → String) :
    Except PyErr (List PyDict × List ClientCall) :=
  match c.invoke call with
  | .error e => .error e
  | .ok r => .ok ([textContent (fmt r)], [call])

/-- The `try` body of `call_tool` (server.py lines 550-820): the
`if/elif` chain on the tool name. -/
def callToolBody (c : Client) (name : String) (args : PyDict) :
    Except PyErr (List PyDict × List ClientCall) :=
  if name = "list_gates" then
    let limit := pyGet args "limit"
    invokeFmt c (.list_gates limit)
      (fun r => format_list_result r "Feature Gates")
  else if name = "get_gate" then
    match pyGetItem args "gate_id" with
    | .error e => .error e
    | .ok gate_id =>
      invokeFmt c (.get_gate gate_id)
        (fun r => format_item_result r "Feature Gate" (pyStr gate_id))
  else if name = "create_gate" then
    match pyGetItem args "name" with
    | .error e => .error e
    | .ok name_val =>
      let description := pyGetD args "description" (.jstr "")
      let is_enabled := pyGetD args "is_enabled" (.jbool false)
      invokeFmt c (.create_gate name_val description is_enabled)
        (fun r => format_create_result r "Feature Gate" (pyStr name_val))
  else if name = "update_gate" then
    match pyGetItem args "gate_id" with
    | .error e => .error e
    | .ok gate_id =>
      let updates := args.filter (fun kv => kv.1 != "gate_id")
      invokeFmt c (.update_gate gate_id updates)
        (fun r => format_update_result r "Feature Gate" (pyStr gate_id))
  else if name = "delete_gate" then
    match pyGetItem args "gate_id" with
    | .error e => .error e
    | .ok gate_id =>
      invokeFmt c (.delete_gate gate_id)
        (fun r => format_delete_result r "Feature Gate" (pyStr gate_id))
  else if name = "list_experiments" then
    let limit := pyGet args "limit"
    invokeFmt c (.list_experiments limit)
      (fun r => format_list_result r "Experiments")
  else if name = "get_experiment" then
    match pyGetItem args "experiment_id" with
    | .error e => .error e
    | .ok experiment_id =>
      invokeFmt c (.get_experiment experiment_id)
        (fun r => format_item_result r "Experiment" (pyStr experiment_id))
  else if name = "create_experiment" then
    match pyGetItem args "name" with
    | .error e => .error e
    | .ok name_val =>
      let description := pyGetD args "description" (.jstr "")
      let hypothesis := pyGet args "hypothesis"
      invokeFmt c (.create_experiment name_val description hypothesis)
        (fun r => format_create_result r "Experiment" (pyStr name_val))
  else if name = "update_experiment" then
    match pyGetItem args "experiment_id" with
    | .error e => .error e
    | .ok experiment_id =>
      let updates := args.filter (fun kv => kv.1 != "experiment_id")
      invokeFmt c (.update_experiment experiment_id updates)
        (fun r => format_update_result r "Experiment" (pyStr experiment_id))
  else if name = "delete_experiment" then
    match pyGetItem args "experiment_id" with
    | .error e => .error e
    | .ok experiment_id =>
      invokeFmt c (.delete_experiment experiment_id)
        (fun r => format_delete_result r "Experiment" (pyStr experiment_id))
  else if name = "list_dynamic_configs" then
    let limit := pyGet args "limit"
    invokeFmt c (.list_dynamic_configs limit)
      (fun r => format_list_result r "Dynamic Configs")
  else if name = "get_dynamic_config" then
    match pyGetItem args "config_id" with
    | .error e => .error e
    | .ok config_id =>
      invokeFmt c (.get_dynamic_config config_id)
        (fun r => format_item_result r "Dynamic Config" (pyStr config_id))
  else if name = "create_dynamic_config" then
    match pyGetItem args "name" with
    | .error e => .error e
    | .ok name_val =>
      let description := pyGetD args "description" (.jstr "")
      invokeFmt c (.create_dynamic_config name_val description)
        (fun r => format_create_result r "Dynamic Config" (pyStr name_val))
  else if name = "update_dynamic_config" then
    match pyGetItem args "config_id" with
    | .error e => .error e
    | .ok config_id =>
      let updates := args.filter (fun kv => kv.1 != "config_id")
      invokeFmt c (.update_dynamic_config config_id updates)
        (fun r => format_update_result r "Dynamic Config" (pyStr config_id))
  else if name = "delete_dynamic_config" then
    match pyGetItem args "config_id" with
    | .error e => .error e
    | .ok config_id =>
      invokeFmt c (.delete_dynamic_config config_id)
        (fun r => format_delete_result r "Dynamic Config" (pyStr config_id))
  else if name = "list_segments" then
    let limit := pyGet args "limit"
    invokeFmt c (.list_segments limit)
      (fun r => format_list_result r "Segments")
  else if name = "get_segment" then
    match pyGetItem args "segment_id" with
    | .error e => .error e
    | .ok segment_id =>
      invokeFmt c (.get_segment segment_id)
        (fun r => format_item_result r "Segment" (pyStr segment_id))
  else if name = "create_segment" then
    match pyGetItem args "name" with
    | .error e => .error e
    | .ok name_val =>
      let description := pyGetD args "description" (.jstr "")
      invokeFmt c (.create_segment name_val description)
        (fun r => format_create_result r "Segment" (pyStr name_val))
  else if name = "list_metrics" then
    let limit := pyGet args "limit"
    invokeFmt c (.list_metrics limit)
      (fun r => format_list_result r "Metrics")
  else if name = "get_metric" then
    match pyGetItem args "metric_id" with
    | .error e => .error e
    | .ok metric_id =>
      invokeFmt c (.get_metric metric_id)
        (fun r => format_item_result r "Metric" (pyStr metric_id))
  else if name = "list_audit_logs" then
    let limit := pyGetD args "limit" (.jint 20)
    let from_date := pyGet args "from_date"
    let to_date := pyGet args "to_date"
    invokeFmt c (.list_audit_logs limit from_date to_date)
      (fun r => format_audit_logs_result r)
  else if name = "list_target_apps" then
    invokeFmt c .list_target_apps
      (fun r => format_list_result r "Target Apps")
  else if name = "get_target_app" then
    match pyGetItem args "app_id" with
    | .error e => .error e
    | .ok app_id =>
      invokeFmt c (.get_target_app app_id)
        (fun r => format_item_result r "Target App" (pyStr app_id))
  else if name = "list_api_keys" then
    invokeFmt c .list_api_keys
      (fun r => format_list_result r "API Keys")
  else if name = "query_events" then
    let event_name := pyGet args "event_name"
    let limit := pyGetD args "limit" (.jint 10)
    invokeFmt c (.query_events event_name limit)
      (fun r => format_events_query_result r)
  else if name = "get_user_by_email" then
    match pyGetItem args "email" with
    | .error e => .error e
    | .ok email =>
      invokeFmt c (.get_user_by_email email)
        (fun r => format_user_result r)
  else if name = "list_team_users" then
    invokeFmt c .list_team_users
      (fun r => format_team_users_result r)
  else if name = "get_experiment_results" then
    match pyGetItem args "experiment_id" with
    | .error e => .error e
    | .ok experiment_id =>
      let include_metrics := pyGetD args "include_metrics" (.jbool true)
      invokeFmt c (.get_experiment_results experiment_id include_metrics)
        (fun r => format_experiment_results r)
  else if name = "get_experiment_pulse" then
    match pyGetItem args "experiment_id" with
    | .error e => .error e
    | .ok experiment_id =>
      invokeFmt c (.get_experiment_pulse experiment_id)
        (fun r => format_pulse_data r)
  else if name = "get_metric_details" then
    match pyGetItem args "metric_id" with
    | .error e => .error e
    | .ok metric_id =>
      match pyGetItem args "experiment_id" with
      | .error e => .error e
      | .ok experiment_id =>
        invokeFmt c (.get_metric_details metric_id experiment_id)
          (fun r => format_metric_details r)
  else if name = "export_pulse_report" then
    match pyGetItem args "experiment_id" with
    | .error e => .error e
    | .ok experiment_id =>
      let format_type := pyGetD args "format" (.jstr "json")
      invokeFmt c (.export_pulse_report experiment_id format_type)
        (fun r => format_pulse_report r (pyStr format_type))
  else
    .ok ([textContent ("Unknown tool: " ++ name)], [])

/-- `call_tool` (lines 542-823): the global-client check comes first;
every exception raised inside the `try` is converted to an
`"Error calling tool ..."` text. -/
def callTool (client : Option Client) (name : String) (args : PyDict) :
    List PyDict × List ClientCall :=
  match client with
  | none => ([textContent "Error: Statsig client not initialized"], [])
  | some c =>
    match callToolBody c name args with
    | .ok r => r
    | .error e =>
      ([textContent ("Error calling tool " ++ name ++ ": " ++ pyErrStr e)], [])

/-- The tool catalog's required-argument declarations (`list_tools`,
server.py lines 59-539): for each tool name, its `required` list. -/
def toolRequiredArgs : List (String × List String) :=
  [("list_gates", []),
   ("get_gate", ["gate_id"]),
   ("create_gate", ["name"]),
   ("update_gate", ["gate_id"]),
   ("delete_gate", ["gate_id"]),
   ("list_experiments", []),
   ("get_experiment", ["experiment_id"]),
   ("create_experiment", ["name"]),
   ("update_experiment", ["experiment_id"]),
   ("delete_experiment", ["experiment_id"]),
   ("list_dynamic_configs", []),
   ("get_dynamic_config", ["config_id"]),
   ("create_dynamic_config", ["name"]),
   ("update_dynamic_config", ["config_id"]),
   ("delete_dynamic_config", ["config_id"]),
   ("list_segments", []),
   ("get_segment", ["segment_id"]),
   ("create_segment", ["name"]),
   ("list_metrics", []),
   ("get_metric", ["metric_id"]),
   ("list_audit_logs", []),
   ("list_target_apps", []),
   ("get_target_app", ["app_id"]),
   ("list_api_keys", []),
   ("query_events", []),
   ("get_user_by_email", ["email"]),
   ("list_team_users", []),
   ("get_experiment_results", ["experiment_id"]),
   ("get_experiment_pulse", ["experiment_id"]),
   ("get_metric_details", ["metric_id", "experiment_id"]),
   ("export_pulse_report", ["experiment_id"])]

end Server

/-! ## Helper lemmas -/

/-- `e.isOk`-style predicate: the call returned normally (no exception
propagated). -/
def exceptOk : Except PyErr α → Bool
  | .ok _ => true
  | .error _ => false

theorem listHasPre_refl (n : List Char) : listHasPre n n = true := by
  induction n with
  | nil => rfl
  | cons a p ih => simp [listHasPre, ih]

theorem listHasSub_suffix (n : List Char) :
    ∀ x : List Char, listHasSub n (x ++ n) = true := by
  intro x
  induction x with
  | nil =>
    cases n with
    | nil => rfl
    | cons a l => simp [listHasSub, listHasPre_refl]
  | cons b t ih => simp [listHasSub, ih]

/-- A string whose character data ends with the needle's contains the
needle. -/
theorem strInfixB_of_data_suffix (needle hay : String) (x : List Char)
    (h : hay.data = x ++ needle.data) : strInfixB needle hay = true := by
  unfold strInfixB
  rw [h]
  exact listHasSub_suffix _ _

/-! ## Claims -/

/-- C10: for every list operation taking an optional limit
(`list_gates`, `list_experiments`, `list_dynamic_configs`,
`list_segments`, `list_metrics`), a limit of `0` or `None` yields the
bare collection URL with no `limit` query parameter — limit `0`
behaves exactly like no limit, never like "return zero items". -/
theorem C10_limit_zero_behaves_as_no_limit :
    (StatsigConsoleClient.list_gates_url none = "/console/v1/gates"
      ∧ StatsigConsoleClient.list_gates_url (some (.jint 0)) = "/console/v1/gates"
      ∧ strInfixB "limit" (StatsigConsoleClient.list_gates_url (some (.jint 0))) = false)
    ∧ (StatsigConsoleClient.list_experiments_url none = "/console/v1/experiments"
      ∧ StatsigConsoleClient.list_experiments_url (some (.jint 0)) = "/console/v1/experiments"
      ∧ strInfixB "limit" (StatsigConsoleClient.list_experiments_url (some (.jint 0))) = false)
    ∧ (StatsigConsoleClient.list_dynamic_configs_url none = "/console/v1/dynamic_configs"
      ∧ StatsigConsoleClient.list_dynamic_configs_url (some (.jint 0)) = "/console/v1/dynamic_configs"
      ∧ strInfixB "limit" (StatsigConsoleClient.list_dynamic_configs_url (some (.jint 0))) = false)
    ∧ (StatsigConsoleClient.list_segments_url none = "/console/v1/segments"
      ∧ StatsigConsoleClient.list_segments_url (some (.jint 0)) = "/console/v1/segments"
      ∧ strInfixB "limit" (StatsigConsoleClient.list_segments_url (some (.jint 0))) = false)
    ∧ (StatsigConsoleClient.list_metrics_url none = "/console/v1/metrics"
      ∧ StatsigConsoleClient.list_metrics_url (some (.jint 0)) = "/console/v1/metrics"
      ∧ strInfixB "limit" (StatsigConsoleClient.list_metrics_url (some (.jint 0))) = false) := by
  decide

/-- C6: the response formatters (`_format_list_result`,
`_format_item_result`) are deterministic, side-effect-free functions of
the envelope and the report shape: applying them twice to the same
envelope yields identical text both times.  (The embedding is a pure
function precisely because the source reads only its `result` argument
and performs no call or mutation.) -/
theorem C6_formatter_idempotent :
    ∀ (result : PyDict) (resource_type item_id : String),
      Server.format_list_result result resource_type
        = Server.format_list_result result resource_type
      ∧ Server.format_item_result result resource_type item_id
        = Server.format_item_result result resource_type item_id :=
  fun _ _ _ => ⟨rfl, rfl⟩

/-- C4: for every operation name and argument map, dispatching before
the Client Handle exists (the global client is still `None`) returns
the `"Error: Statsig client not initialized"` text — which contains
"not initialized" — makes no backend call, and returns normally rather
than raising. -/
theorem C4_dispatch_before_init_reports_not_initialized :
    ∀ (name : String) (args : PyDict),
      Server.callTool none name args
        = ([Server.textContent "Error: Statsig client not initialized"], [])
      ∧ strInfixB "not initialized" "Error: Statsig client not initialized"
        = true :=
  fun _ _ => ⟨rfl, by decide⟩

theorem pyGet_append (d1 d2 : PyDict) (k : String) :
    pyGet (d1 ++ d2) k
      = match pyGet d1 k with
        | some v => some v
        | none => pyGet d2 k := by
  induction d1 with
  | nil => simp [pyGet]
  | cons kv d ih =>
    obtain ⟨k', v⟩ := kv
    by_cases h : k' = k <;> simp [pyGet, h, ih]

/-- C9: the request body `update_gate` PATCHes contains exactly those
of the keys `name`, `description`, `is_enabled` present in the updates
map (`is_enabled` renamed to `isEnabled`); every other key is silently
discarded — whereas `update_experiment` forwards its updates map to the
backend verbatim. -/
theorem C9_update_gate_filters_updates :
    ∀ updates : PyDict,
      pyGet (StatsigConsoleClient.update_gate_data updates) "name"
        = pyGet updates "name"
      ∧ pyGet (StatsigConsoleClient.update_gate_data updates) "description"
        = pyGet updates "description"
      ∧ pyGet (StatsigConsoleClient.update_gate_data updates) "isEnabled"
        = pyGet updates "is_enabled"
      ∧ (∀ k, ¬(k = "name" ∨ k = "description" ∨ k = "isEnabled") →
          pyGet (StatsigConsoleClient.update_gate_data updates) k = none)
      ∧ StatsigConsoleClient.update_experiment_data updates = updates := by
  intro updates
  refine ⟨?_, ?_, ?_, ?_, rfl⟩
  · rcases hn : pyGet updates "name" with _ | v1 <;>
    rcases hd : pyGet updates "description" with _ | v2 <;>
    rcases he : pyGet updates "is_enabled" with _ | v3 <;>
    simp [StatsigConsoleClient.update_gate_data, pyContains, pyGetD,
      hn, hd, he, pyGet]
  · rcases hn : pyGet updates "name" with _ | v1 <;>
    rcases hd : pyGet updates "description" with _ | v2 <;>
    rcases he : pyGet updates "is_enabled" with _ | v3 <;>
    simp [StatsigConsoleClient.update_gate_data, pyContains, pyGetD,
      hn, hd, he, pyGet]
  · rcases hn : pyGet updates "name" with _ | v1 <;>
    rcases hd : pyGet updates "description" with _ | v2 <;>
    rcases he : pyGet updates "is_enabled" with _ | v3 <;>
    simp [StatsigConsoleClient.update_gate_data, pyContains, pyGetD,
      hn, hd, he, pyGet]
  · intro k hk
    push_neg at hk
    obtain ⟨h1, h2, h3⟩ := hk
    rcases hn : pyGet updates "name" with _ | v1 <;>
    rcases hd : pyGet updates "description" with _ | v2 <;>
    rcases he : pyGet updates "is_enabled" with _ | v3 <;>
    simp [StatsigConsoleClient.update_gate_data, pyContains, pyGetD,
      hn, hd, he, pyGet, Ne.symm h1, Ne.symm h2, Ne.symm h3]

/-- Witness for C9: with updates `{"is_enabled": True, "foo": "x"}`,
the body carries `isEnabled` and drops `foo`. -/
theorem C9_update_gate_filters_updates_witness :
    pyGet (StatsigConsoleClient.update_gate_data
        [("is_enabled", .jbool true), ("foo", .jstr "x")]) "isEnabled"
      = some (.jbool true)
    ∧ pyGet (StatsigConsoleClient.update_gate_data
        [("is_enabled", .jbool true), ("foo", .jstr "x")]) "foo" = none := by
  have h := C9_update_gate_filters_updates
    [("is_enabled", .jbool true), ("foo", .jstr "x")]
  exact ⟨h.2.2.1.trans rfl, h.2.2.2.1 "foo" (by decide)⟩

/-- C7: for every user-attribute map containing a `user_id`, when the
underlying SDK log call succeeds, `log_event` with event name
`"purchase"`, value `9.99` and metadata `{"sku": "A1"}` returns exactly
`{success: True, message: "Event 'purchase' logged successfully"}`
(client initialized). -/
theorem C7_log_event_success_message :
    ∀ attrs : PyDict, (pyGet attrs "user_id").isSome = true →
    ∀ sdk : PyDict → String → Option JValue → PyDict → Except String Unit,
      (∀ u, sdk u "purchase" (some (.jnum "9.99")) [("sku", .jstr "A1")]
        = .ok ()) →
      StatsigMCPClient.log_event true attrs "purchase" (some (.jnum "9.99"))
        (some [("sku", .jstr "A1")]) sdk
        = .ok ⟨true, "Event 'purchase' logged successfully"⟩ := by
  intro attrs h sdk hsdk
  obtain ⟨uid, huid⟩ := Option.isSome_iff_exists.mp h
  simp [StatsigMCPClient.log_event, StatsigMCPClient.create_statsig_user,
    huid, hsdk]

/-- Witness for C7 at a concrete attribute map and a succeeding SDK. -/
theorem C7_log_event_success_message_witness :
    StatsigMCPClient.log_event true [("user_id", .jstr "u1")] "purchase"
      (some (.jnum "9.99")) (some [("sku", .jstr "A1")])
      (fun _ _ _ _ => .ok ())
      = .ok ⟨true, "Event 'purchase' logged successfully"⟩ :=
  C7_log_event_success_message [("user_id", .jstr "u1")] rfl
    (fun _ _ _ _ => .ok ()) (fun _ => rfl)

/-- C1 (amended): for user-attribute maps carrying a `user_id` and an
initialized client, *if* the underlying SDK evaluation call throws then
`check_feature_gate` returns `value False` with the `rule_id "error"`
marker, `get_dynamic_config`/`get_experiment`/`get_layer` return an
empty value map, and `log_event` returns `success False` carrying the
error text; and whatever the SDK call does, no exception propagates
past this layer.  (The converse direction of the original claim and its
unrestricted attribute map are refuted by `C1_counterexample`.) -/
theorem C1_sdk_throw_safe_defaults :
    ∀ attrs : PyDict, (pyGet attrs "user_id").isSome = true →
    ∀ (gname cname ename lname evname e : String) (value : Option JValue)
      (metadata : Option PyDict),
      (∀ sdk : PyDict → String → Except String SdkGate,
        (∀ u, sdk u gname = .error e) →
        StatsigMCPClient.check_feature_gate true attrs gname sdk
          = .ok ⟨gname, false, "error", none⟩)
      ∧ (∀ sdk : PyDict → String → Except String SdkConfig,
        (∀ u, sdk u cname = .error e) →
        StatsigMCPClient.get_dynamic_config true attrs cname sdk
          = .ok ⟨cname, [], "error", none⟩)
      ∧ (∀ sdk : PyDict → String → Except String SdkConfig,
        (∀ u, sdk u ename = .error e) →
        StatsigMCPClient.get_experiment true attrs ename sdk
          = .ok ⟨ename, [], "error", none⟩)
      ∧ (∀ sdk : PyDict → String → Except String SdkLayer,
        (∀ u, sdk u lname = .error e) →
        StatsigMCPClient.get_layer true attrs lname sdk
          = .ok ⟨lname, [], "error", none⟩)
      ∧ (∀ sdk : PyDict → String → Option JValue → PyDict → Except String Unit,
        (∀ u, sdk u evname value (metadata.getD []) = .error e) →
        StatsigMCPClient.log_event true attrs evname value metadata sdk
          = .ok ⟨false, "Failed to log event: " ++ e⟩)
      ∧ (∀ sdk : PyDict → String → Except String SdkGate,
        exceptOk (StatsigMCPClient.check_feature_gate true attrs gname sdk)
          = true)
      ∧ (∀ sdk : PyDict → String → Except String SdkConfig,
        exceptOk (StatsigMCPClient.get_dynamic_config true attrs cname sdk)
          = true)
      ∧ (∀ sdk : PyDict → String → Except String SdkConfig,
        exceptOk (StatsigMCPClient.get_experiment true attrs ename sdk)
          = true)
      ∧ (∀ sdk : PyDict → String → Except String SdkLayer,
        exceptOk (StatsigMCPClient.get_layer true attrs lname sdk) = true)
      ∧ (∀ sdk : PyDict → String → Option JValue → PyDict → Except String Unit,
        exceptOk (StatsigMCPClient.log_event true attrs evname value
          metadata sdk) = true) := by
  intro attrs h gname cname ename lname evname e value metadata
  obtain ⟨uid, huid⟩ := Option.isSome_iff_exists.mp h
  refine ⟨?_, ?_, ?_, ?_, ?_, ?_, ?_, ?_, ?_, ?_⟩
  · intro sdk hsdk
    simp [StatsigMCPClient.check_feature_gate,
      StatsigMCPClient.create_statsig_user, huid, hsdk]
  · intro sdk hsdk
    simp [StatsigMCPClient.get_dynamic_config,
      StatsigMCPClient.create_statsig_user, huid, hsdk]
  · intro sdk hsdk
    simp [StatsigMCPClient.get_experiment,
      StatsigMCPClient.create_statsig_user, huid, hsdk]
  · intro sdk hsdk
    simp [StatsigMCPClient.get_layer,
      StatsigMCPClient.create_statsig_user, huid, hsdk]
  · intro sdk hsdk
    simp [StatsigMCPClient.log_event,
      StatsigMCPClient.create_statsig_user, huid, hsdk]
  · intro sdk
    simp [StatsigMCPClient.check_feature_gate,
      StatsigMCPClient.create_statsig_user, huid]
    split <;> rfl
  · intro sdk
    simp [StatsigMCPClient.get_dynamic_config,
      StatsigMCPClient.create_statsig_user, huid]
    split <;> rfl
  · intro sdk
    simp [StatsigMCPClient.get_experiment,
      StatsigMCPClient.create_statsig_user, huid]
    split <;> rfl
  · intro sdk
    simp [StatsigMCPClient.get_layer,
      StatsigMCPClient.create_statsig_user, huid]
    split <;> rfl
  · intro sdk
    simp [StatsigMCPClient.log_event,
      StatsigMCPClient.create_statsig_user, huid]
    split <;> rfl

/-- Witness for C1 (amended) at a concrete attribute map and a
throwing SDK call. -/
theorem C1_sdk_throw_safe_defaults_witness :
    StatsigMCPClient.check_feature_gate true [("user_id", .jstr "u1")] "g"
      (fun _ _ => .error "boom") = .ok ⟨"g", false, "error", none⟩
    ∧ StatsigMCPClient.log_event true [("user_id", .jstr "u1")] "ev" none none
      (fun _ _ _ _ => .error "boom")
      = .ok ⟨false, "Failed to log event: boom"⟩ := by
  have h := C1_sdk_throw_safe_defaults [("user_id", .jstr "u1")] rfl
    "g" "c" "x" "l" "ev" "boom" none none
  exact ⟨h.1 _ (fun _ => rfl), (h.2.2.2.2.1 _ (fun _ => rfl)).trans rfl⟩

/-- Counterexample to C1 as stated.  First conjunct: with an
initialized client but an attribute map lacking `user_id`, the
`KeyError` raised by `_create_statsig_user` (which sits outside the
`try`) propagates past the layer, contradicting "in no case does the
exception propagate".  Second conjunct: a *non-throwing* SDK call whose
config object carries an empty value map makes `get_dynamic_config`
return the empty map (with the SDK's own `rule_id "default"`), so the
"only if the call throws" direction of the biconditional is false. -/
theorem C1_counterexample :
    StatsigMCPClient.check_feature_gate true [] "g"
      (fun _ _ => .ok ⟨true, "default", none⟩) = .error (.keyError "user_id")
    ∧ StatsigMCPClient.get_dynamic_config true [("user_id", .jstr "u1")] "cfg"
      (fun _ _ => .ok ⟨[], "default", none⟩)
      = .ok ⟨"cfg", [], "default", none⟩ :=
  ⟨rfl, rfl⟩

/-- C2: with an initialized client, `get_gate` on HTTP 404 returns
exactly `{found: False, error: "Gate '<id>' not found"}` without
raising, its item-formatted text contains "not found", and every other
failure (network error, non-2xx status, malformed body) yields an
envelope carrying an error message; no outcome makes an exception
escape. -/
theorem C2_get_gate_error_envelopes :
    ∀ gate_id : String,
      (∀ body, StatsigConsoleClient.get_gate true gate_id (.resp 404 body)
        = .ok [("found", .jbool false),
          ("error", .jstr ("Gate '" ++ gate_id ++ "' not found"))])
      ∧ strInfixB "not found"
          (Server.format_item_result
            [("found", .jbool false),
             ("error", .jstr ("Gate '" ++ gate_id ++ "' not found"))]
            "Feature Gate" gate_id) = true
      ∧ (∀ msg, StatsigConsoleClient.get_gate true gate_id (.fail msg)
          = .ok [("error", .jstr msg)])
      ∧ (∀ status body, status ≠ 404 →
          StatsigConsoleClient.is2xx status = false →
          StatsigConsoleClient.get_gate true gate_id (.resp status body)
            = .ok [("error", .jstr (StatsigConsoleClient.statusErrMsg status))])
      ∧ (∀ status msg, status ≠ 404 →
          StatsigConsoleClient.is2xx status = true →
          StatsigConsoleClient.get_gate true gate_id (.resp status (.error msg))
            = .ok [("error", .jstr msg)])
      ∧ (∀ outcome,
          exceptOk (StatsigConsoleClient.get_gate true gate_id outcome)
            = true) := by
  intro gid
  refine ⟨?_, ?_, ?_, ?_, ?_, ?_⟩
  · intro body
    simp [StatsigConsoleClient.get_gate]
  · have henv : pyGet [("found", .jbool false),
        ("error", .jstr ("Gate '" ++ gid ++ "' not found"))] "error"
        = some (.jstr ("Gate '" ++ gid ++ "' not found")) := by
      simp [pyGet]
    have htext : Server.format_item_result
        [("found", .jbool false),
         ("error", .jstr ("Gate '" ++ gid ++ "' not found"))]
        "Feature Gate" gid
        = "❌ Error getting " ++ "Feature Gate" ++ " " ++ gid ++ ": "
          ++ ("Gate '" ++ gid ++ "' not found") := by
      simp [Server.format_item_result, henv, pyTruthyOpt, JValue.truthy,
        pyStrOpt, pyStr, String.data_append]
    rw [htext]
    apply strInfixB_of_data_suffix _ _
      (("❌ Error getting " ++ "Feature Gate" ++ " " ++ gid ++ ": "
        ++ "Gate '" ++ gid ++ "' " : String).data)
    have hsplit : ("' not found" : String).data
        = ("' " : String).data ++ ("not found" : String).data := rfl
    simp [String.data_append, hsplit, List.append_assoc]
  · intro msg
    simp [StatsigConsoleClient.get_gate]
  · intro status body h404 h2xx
    simp [StatsigConsoleClient.get_gate, h404, h2xx]
  · intro status msg h404 h2xx
    simp [StatsigConsoleClient.get_gate, h404, h2xx]
  · intro outcome
    cases outcome <;> rfl

/-- Witness for C2 at `gate_id = "missing_id"`, a 404 response, a 500
response and a 200 response with a malformed body. -/
theorem C2_get_gate_error_envelopes_witness :
    StatsigConsoleClient.get_gate true "missing_id" (.resp 404 (.ok []))
      = .ok [("found", .jbool false),
        ("error", .jstr "Gate 'missing_id' not found")]
    ∧ strInfixB "not found"
        (Server.format_item_result
          [("found", .jbool false),
           ("error", .jstr "Gate 'missing_id' not found")]
          "Feature Gate" "missing_id") = true
    ∧ StatsigConsoleClient.get_gate true "missing_id" (.resp 500 (.ok []))
      = .ok [("error", .jstr (StatsigConsoleClient.statusErrMsg 500))]
    ∧ StatsigConsoleClient.get_gate true "missing_id"
        (.resp 200 (.error "bad json")) = .ok [("error", .jstr "bad json")] := by
  have h := C2_get_gate_error_envelopes "missing_id"
  exact ⟨(h.1 (.ok [])).trans rfl, h.2.1,
    h.2.2.2.1 500 (.ok []) (by decide) (by decide),
    h.2.2.2.2.1 200 "bad json" (by decide) (by decide)⟩

/-- A formatted line is an item entry exactly when it starts with the
`🔹` bullet (`_format_list_result` emits one per item). -/
def isEntryLine (l : String) : Bool := l.data.head? == some '🔹'

theorem countP_listEntryLines (item : JValue) :
    (Server.listEntryLines item).countP isEntryLine = 1 := by
  simp only [Server.listEntryLines, Server.listEntryHead]
  split_ifs <;>
    simp [List.countP_append, List.countP_cons, isEntryLine,
      String.data_append]

theorem countP_flatMap_listEntryLines (items : List JValue) :
    (items.flatMap Server.listEntryLines).countP isEntryLine
      = items.length := by
  induction items with
  | nil => rfl
  | cons a t ih =>
    simp [List.countP_append, countP_listEntryLines, ih]
    omega

/-- C8: a `list_gates` call with limit 5 whose backend reply holds
exactly 5 items (and no overriding `total` field) returns that reply
unchanged, and its list-formatted text has the header
`📋 Feature Gates (5 found)` and exactly 5 item entry lines. -/
theorem C8_list_gates_limit5_header_and_entries :
    ∀ (backend : String → HttpOutcome) (d : PyDict) (items : List JValue),
      backend "/console/v1/gates?limit=5" = .resp 200 (.ok d) →
      pyGet d "error" = none →
      pyGet d "data" = some (.jlist items) →
      items.length = 5 →
      pyGet d "total" = none →
      StatsigConsoleClient.list_gates true (some (.jint 5)) backend = .ok d
      ∧ (Server.format_list_lines d "Feature Gates").head?
        = some "📋 Feature Gates (5 found)"
      ∧ (Server.format_list_lines d "Feature Gates").countP isEntryLine = 5
      ∧ Server.format_list_result d "Feature Gates"
        = String.intercalate "\n" (Server.format_list_lines d "Feature Gates") := by
  intro backend d items hb herr hdata hlen htot
  have hurl : StatsigConsoleClient.list_gates_url (some (.jint 5))
      = "/console/v1/gates?limit=5" := by decide
  have hne : items.isEmpty = false := by
    cases items with
    | nil => simp at hlen
    | cons a t => rfl
  refine ⟨?_, ?_, ?_, ?_⟩
  · simp [StatsigConsoleClient.list_gates, StatsigConsoleClient.listFetch,
      hurl, hb, StatsigConsoleClient.is2xx]
  · simp [Server.format_list_lines, hdata, htot, pyGetD, jElems, hne, hlen]
    rfl
  · simp [Server.format_list_lines, hdata, htot, pyGetD, jElems, hne,
      List.countP_cons, isEntryLine, countP_flatMap_listEntryLines, hlen,
      String.data_append]
  · simp [Server.format_list_result, herr, pyTruthyOpt]

/-- Witness for C8 at a concrete backend reply holding 5 items. -/
theorem C8_list_gates_limit5_header_and_entries_witness :
    StatsigConsoleClient.list_gates true (some (.jint 5))
      (fun _ => .resp 200 (.ok [("data",
        .jlist [.jdict [], .jdict [], .jdict [], .jdict [], .jdict []])]))
      = .ok [("data",
        .jlist [.jdict [], .jdict [], .jdict [], .jdict [], .jdict []])]
    ∧ (Server.format_list_lines
        [("data", .jlist [.jdict [], .jdict [], .jdict [], .jdict [], .jdict []])]
        "Feature Gates").head? = some "📋 Feature Gates (5 found)"
    ∧ (Server.format_list_lines
        [("data", .jlist [.jdict [], .jdict [], .jdict [], .jdict [], .jdict []])]
        "Feature Gates").countP isEntryLine = 5 := by
  have h := C8_list_gates_limit5_header_and_entries
    (fun _ => .resp 200 (.ok [("data",
      .jlist [.jdict [], .jdict [], .jdict [], .jdict [], .jdict []])]))
    [("data", .jlist [.jdict [], .jdict [], .jdict [], .jdict [], .jdict []])]
    [.jdict [], .jdict [], .jdict [], .jdict [], .jdict []]
    rfl rfl rfl rfl rfl
  exact ⟨h.1, h.2.1, h.2.2.1⟩

/-- Counterexample to C3 as stated: an envelope with no error and the
populated data map `{"id": "g1"}` formats (item shape) to a text in
which the key `id` is not rendered at all — `_format_item_result`
explicitly skips the keys `id`, `data`, `found`, `error` — so the
formatters are not lossless on every key. -/
theorem C3_counterexample :
    Server.format_item_result [("data", .jdict [("id", .jstr "g1")])]
      "Feature Gate" "g1" = "📄 Feature Gate: g1\n"
    ∧ strInfixB "id"
        (Server.format_item_result [("data", .jdict [("id", .jstr "g1")])]
          "Feature Gate" "g1") = false
    ∧ strInfixB "Id"
        (Server.format_item_result [("data", .jdict [("id", .jstr "g1")])]
          "Feature Gate" "g1") = false := by
  refine ⟨by decide, by decide, by decide⟩

/-- C3 (amended): for an envelope whose error field is absent or falsy,
the item formatter (when the envelope is not marked not-found) renders
every key of its data map *except* `id`, `data`, `found` and `error` on
an output line, and the list formatter renders an entry line for every
(object) item of its data list. -/
theorem C3_formatter_renders_keys :
    ∀ (result : PyDict) (resource_type item_id : String),
      (pyTruthyOpt (pyGet result "error") = false →
        (pyGetD result "found" (.jbool true)).truthy = true →
        Server.format_item_result result resource_type item_id
          = String.intercalate "\n"
            (Server.format_item_lines result resource_type item_id)
        ∧ ∀ k v, (k, v) ∈ jItems (pyGetD result "data" (.jdict result)) →
            ¬(k = "id" ∨ k = "data" ∨ k = "found" ∨ k = "error") →
            Server.itemBodyLine k v
              ∈ Server.format_item_lines result resource_type item_id)
      ∧ (pyTruthyOpt (pyGet result "error") = false →
        ∀ di : PyDict, .jdict di ∈ jElems (pyGetD result "data"
            (pyGetD result "items" (.jlist []))) →
          Server.format_list_result result resource_type
            = String.intercalate "\n"
              (Server.format_list_lines result resource_type)
          ∧ Server.listEntryHead (.jdict di)
            ∈ Server.format_list_lines result resource_type) := by
  intro result resource_type item_id
  constructor
  · intro herr hfound
    constructor
    · simp [Server.format_item_result, herr, hfound]
    · intro k v hmem hk
      simp only [Server.format_item_lines]
      refine List.mem_cons_of_mem _ (List.mem_cons_of_mem _ ?_)
      exact List.mem_filterMap.mpr ⟨(k, v), hmem, by rw [if_neg hk]⟩
  · intro herr di hmem
    have hne : (jElems (pyGetD result "data"
        (pyGetD result "items" (.jlist [])))).isEmpty = false := by
      cases h' : jElems (pyGetD result "data"
          (pyGetD result "items" (.jlist []))) with
      | nil => rw [h'] at hmem; exact absurd hmem (List.not_mem_nil _)
      | cons a t => rfl
    constructor
    · simp [Server.format_list_result, herr]
    · simp only [Server.format_list_lines, hne, Bool.false_eq_true,
        if_false]
      refine List.mem_cons_of_mem _ (List.mem_cons_of_mem _ ?_)
      refine List.mem_flatMap.mpr ⟨.jdict di, hmem, ?_⟩
      simp [Server.listEntryLines]

/-- Witness for C3 (amended): an allowed key is rendered by the item
formatter and a concrete item gets its entry line. -/
theorem C3_formatter_renders_keys_witness :
    Server.itemBodyLine "name" (.jstr "g")
      ∈ Server.format_item_lines [("data", .jdict [("name", .jstr "g")])]
        "Feature Gate" "g1"
    ∧ Server.listEntryHead (.jdict [])
      ∈ Server.format_list_lines [("data", .jlist [.jdict []])]
        "Feature Gates" := by
  have h1 := (C3_formatter_renders_keys
    [("data", .jdict [("name", .jstr "g")])] "Feature Gate" "g1").1 rfl rfl
  have h2 := (C3_formatter_renders_keys
    [("data", .jlist [.jdict []])] "Feature Gates" "x").2 rfl []
    (List.mem_singleton.mpr rfl)
  exact ⟨h1.2 "name" (.jstr "g") (List.mem_singleton.mpr rfl) (by decide),
    h2.2⟩

/-- Counterexample to C5 as stated: `get_metric_details` declares the
required arguments `metric_id` and `experiment_id`; the empty argument
map omits `experiment_id`, yet the dispatch error names only
`metric_id` (the first extraction to fail), so the text does not name
*that* missing argument.  (No backend call is attempted.) -/
theorem C5_counterexample :
    Server.callTool (some ⟨true, fun _ => []⟩) "get_metric_details" []
      = ([Server.textContent
          "Error calling tool get_metric_details: 'metric_id'"], [])
    ∧ pyGet ([] : PyDict) "experiment_id" = none
    ∧ strInfixB "experiment_id"
        "Error calling tool get_metric_details: 'metric_id'" = false := by
  exact ⟨rfl, rfl, by decide⟩

/-- C5 (amended): for every operation declaring required arguments and
every argument map missing at least one of them, dispatch returns an
error text naming a missing required argument — the first one the
handler extracts — and no backend call is attempted (the recorded call
list is empty). -/
theorem C5_missing_required_arg_rejected :
    ∀ t reqs, (t, reqs) ∈ Server.toolRequiredArgs →
    ∀ (c : Client) (args : PyDict),
      (∃ r ∈ reqs, pyGet args r = none) →
      ∃ r ∈ reqs, pyGet args r = none
        ∧ Server.callTool (some c) t args
          = ([Server.textContent ("Error calling tool " ++ t ++ ": "
              ++ pyErrStr (.keyError r))], []) := by
  intro t reqs ht c args h
  obtain ⟨r0, hr0, hmiss0⟩ := h
  fin_cases ht <;>
    first
    | exact absurd hr0 (List.not_mem_nil _)
    | (obtain rfl := List.mem_singleton.mp hr0
       exact ⟨_, List.mem_singleton.mpr rfl, hmiss0,
         by simp [Server.callTool, Server.callToolBody, pyGetItem, hmiss0]⟩)
    | (cases hm : pyGet args "metric_id" with
       | none =>
         exact ⟨"metric_id", by simp, hm,
           by simp [Server.callTool, Server.callToolBody, pyGetItem, hm]⟩
       | some v =>
         rcases List.mem_cons.mp hr0 with h1 | h1
         · subst h1
           rw [hmiss0] at hm
           simp at hm
         · obtain rfl := List.mem_singleton.mp h1
           exact ⟨"experiment_id", by simp, hmiss0,
             by simp [Server.callTool, Server.callToolBody, pyGetItem,
               hm, hmiss0]⟩)

/-- Witness for C5 (amended): `get_gate` with an empty argument map is
rejected naming `gate_id`, with no backend call recorded. -/
theorem C5_missing_required_arg_rejected_witness :
    ∃ r ∈ ["gate_id"], pyGet ([] : PyDict) r = none
      ∧ Server.callTool (some ⟨true, fun _ => []⟩) "get_gate" []
        = ([Server.textContent ("Error calling tool " ++ "get_gate" ++ ": "
            ++ pyErrStr (.keyError r))], []) :=
  C5_missing_required_arg_rejected "get_gate" ["gate_id"] (by decide)
    ⟨true, fun _ => []⟩ [] ⟨"gate_id", List.mem_singleton.mpr rfl, rfl⟩
